import Mathlib

/-!
Shallow embedding of the QuickCart backend (src/server.js) and proofs of the
specification's testable properties.

Modelling conventions:
* JavaScript numbers are modelled by `JNum`: finite values as exact rationals
  (no claim depends on floating-point rounding), plus NaN and the two
  infinities, so that `Number.isFinite` and IEEE `===` (NaN is not equal to
  itself, the infinities are equal to themselves) are rendered faithfully.
* Timestamps are milliseconds since the Unix epoch (`Nat`).  JavaScript's
  `Date.prototype.toISOString` is injective and order-preserving on the
  millisecond clock value, so equalities between stored ISO strings are
  equivalent to equalities between the underlying millisecond values; we tell
  records' timestamps apart at the millisecond level.
* Each clock read in the source (`new Date()`, `Date.now()`) is an explicit
  parameter of the handler, supplied in source order; `Math.random()*9000`
  floored is the parameter `rnd : Fin 9000`.
* JSON request fields are modelled by `Option JVal` (`none` is an absent
  field, i.e. `typeof x === 'undefined'`); item fields, which the code only
  ever coerces with `Number(...)`, are `Option JNum` holding their coerced
  numeric value, with `none` again meaning absent.
* `body.items` is `Option (List ReqItem)`: `none` covers both an absent
  field and a non-array value, which take the same `items_required` branch;
  array elements are modelled as records of optional numeric fields.
-/

set_option autoImplicit false

namespace QuickCart

/-- A JavaScript number as far as this server observes it: a finite value
(exact rational), NaN, or an infinity. -/
inductive JNum where
  | fin (q : Rat)
  | nan
  | inf
  | ninf
deriving DecidableEq, Repr

/-- IEEE strict equality `===` on numbers: finite values compare by value,
each infinity equals itself, and NaN is equal to nothing (including NaN). -/
def jsEq : JNum → JNum → Bool
  | JNum.fin a, JNum.fin b => a == b
  | JNum.inf, JNum.inf => true
  | JNum.ninf, JNum.ninf => true
  | _, _ => false

/-- `Number.isFinite`. -/
def JNum.isFinite : JNum → Bool
  | JNum.fin _ => true
  | _ => false

/-- A JavaScript value in a request field, restricted to the shapes the
handlers inspect: strings, numbers, null and booleans. -/
inductive JVal where
  | vstr (s : String)
  | vnum (n : JNum)
  | vnull
  | vbool (b : Bool)
deriving DecidableEq, Repr

/-- JavaScript truthiness for the values of `JVal` (an absent field,
`none` at the `Option JVal` level, is falsy as well). -/
def truthy : Option JVal → Bool
  | some (JVal.vstr s) => !(s == "")
  | some (JVal.vnum (JNum.fin q)) => !(q == 0)
  | some (JVal.vnum JNum.nan) => false
  | some (JVal.vnum _) => true
  | some JVal.vnull => false
  | some (JVal.vbool b) => b
  | none => false

/-- `Number(x)` for an optional numeric field: `Number(undefined)` is NaN. -/
def jsNumField : Option JNum → JNum
  | some n => n
  | none => JNum.nan

/-- JavaScript `String.prototype.trim`: strip leading and trailing
whitespace.  Written structurally over the character list (the library's
`String.trim` is defined by well-founded recursion, which blocks kernel
evaluation); the whitespace class is the ASCII one, which covers every
request this development reasons about. -/
def jsTrim (s : String) : String :=
  String.mk (((s.data.dropWhile Char.isWhitespace).reverse.dropWhile
    Char.isWhitespace).reverse)

/-! ### UTC calendar date

`new Date().toISOString().slice(0, 10)` with the dashes removed renders the current
UTC calendar date as `YYYYMMDD`.  `civilFromDays` is the standard proleptic
Gregorian conversion from a day count (days since 1970-01-01, non-negative
here since the clock is a `Nat`) to year/month/day. -/

/-- Convert days since the Unix epoch to the proleptic Gregorian UTC calendar
date (year, month, day). -/
def civilFromDays (z : Nat) : Nat × Nat × Nat :=
  let shift := z + 719468
  let era := shift / 146097
  let doe := shift % 146097
  let yoe := (doe - doe / 1460 + doe / 36524 - doe / 146096) / 365
  let y := yoe + era * 400
  let doy := doe - (365 * yoe + yoe / 4 - yoe / 100)
  let mp := (5 * doy + 2) / 153
  let d := doy - (153 * mp + 2) / 5 + 1
  let m := if mp < 10 then mp + 3 else mp - 9
  (if m ≤ 2 then y + 1 else y, m, d)

/-- Left-pad a numeral with zeros (`Char.ofNat 48`) to the given width. -/
def padNum (width : Nat) (n : Nat) : String :=
  let s := toString n
  String.mk (List.replicate (width - s.length) (Char.ofNat 48)) ++ s

/-- The `YYYYMMDD` string for a day count since the epoch, as produced by
`toISOString().slice(0, 10)` with dashes removed (years up to 9999, the range
in which `toISOString` uses the plain four-digit form). -/
def yyyymmdd (days : Nat) : String :=
  let c := civilFromDays days
  padNum 4 c.1 ++ padNum 2 c.2.1 ++ padNum 2 c.2.2

/-! ### Data model -/

/-- A stored product record: a numeric identifier plus the remaining
descriptive fields, opaque to this server and kept as an abstract payload so
that returning the exact stored record is observable. -/
structure Product where
  id : JNum
  payload : String
deriving DecidableEq, Repr

/-- An element of the request's `items` array: optional `product_id` and
`quantity` fields holding their `Number(...)`-coerced values. -/
structure ReqItem where
  product_id : Option JNum
  quantity : Option JNum
deriving DecidableEq, Repr

/-- The JSON body of a POST /carts request. -/
structure CartRequest where
  cart_id : Option JVal
  customer_id : Option JVal
  items : Option (List ReqItem)
deriving DecidableEq, Repr

/-- A stored cart item after normalisation (`Number(it.product_id)`,
`Number(it.quantity)`). -/
structure StoredItem where
  product_id : JNum
  quantity : JNum
deriving DecidableEq, Repr

/-- A stored cart record, shaped exactly as the object built at
src/server.js lines 137-145 (timestamps in epoch milliseconds). -/
structure Cart where
  cart_id : String
  customer_id : String
  items : List StoredItem
  status : String
  created_at : Nat
  updated_at : Nat
  expires_at : Nat
deriving DecidableEq, Repr

/-- One entry of the `invalid_items` details list: the item's index, a reason
string, and (for unresolvable products only) the attempted product id. -/
structure ItemError where
  index : Nat
  reason : String
  product_id : Option JNum
deriving DecidableEq, Repr

/-- JSON response bodies of the four handlers. -/
inductive RespBody where
  | err (error : String)
  | errDetails (error : String) (details : List ItemError)
  | productsOk (total : Nat) (products : List Product)
  | productOk (product : Product)
  | cartOk (cart_id : String) (status : String) (message : String)
  | cartsOk (total : Nat) (carts : List Cart)
deriving DecidableEq, Repr

/-- An HTTP response: status code and JSON body. -/
structure HttpResp where
  status : Nat
  body : RespBody
deriving DecidableEq, Repr

/-! ### Storage and helpers -/

/-- The value of an `async` function call before it is awaited.  Array
methods such as `slice` do not exist on it. -/
structure JsPromise (α : Type) where
  val : α
deriving DecidableEq, Repr

/-- `readJsonOrEmpty` (src/server.js lines 33-41): a missing file (ENOENT)
yields `[]`, otherwise the parsed contents.  The promise wrapper records that
the caller must await before using the result. -/
def readJsonOrEmptyP {α : Type} (file : Option (List α)) : JsPromise (List α) :=
  { val := file.getD [] }

/-- Property lookup of `slice` on a Promise object: Promises have no such
method, so the lookup yields `undefined` (`none`); calling it throws a
TypeError. -/
def promiseSliceMethod {α : Type} (_p : JsPromise (List α)) :
    Option (Int → Int → List α) :=
  none

/-- The numeric value of a list of decimal digit characters. -/
def digitsToNat (ds : List Char) : Nat :=
  ds.foldl (fun n c => n * 10 + (c.toNat - 48)) 0

/-- `parseInt(s, 10)`: optional leading whitespace, an optional sign, then
leading decimal digits; `none` is NaN (no digits). -/
def parseIntBase10 (s : String) : Option Int :=
  let t := s.data.dropWhile Char.isWhitespace
  let sgn : Int := if t.take 1 == [Char.ofNat 45] then -1 else 1
  let u := if t.take 1 == [Char.ofNat 45] || t.take 1 == [Char.ofNat 43] then t.drop 1 else t
  let digits := u.takeWhile Char.isDigit
  if digits.isEmpty then none
  else some (sgn * digitsToNat digits)

/-- `parseInt(req.query.limit, 10) || 10` (src/server.js line 59): an absent
parameter gives `parseInt(undefined)` = NaN, and `|| 10` replaces a falsy
result (NaN or 0) by 10. -/
def limitParam (s : Option String) : Int :=
  match s with
  | none => 10
  | some str =>
    match parseIntBase10 str with
    | none => 10
    | some v => if v == 0 then 10 else v

/-- `1000 * 60 * 60 * 24 * 7` milliseconds (src/server.js line 135). -/
def sevenDaysMs : Nat := 1000 * 60 * 60 * 24 * 7

/-- `generateCartId` (src/server.js lines 48-52): `CART-` + the current UTC
calendar date as `YYYYMMDD` + `-` + `Math.floor(Math.random() * 9000) + 1000`.
`nowGen` is the millisecond clock read by `new Date()` inside the function
and `rnd` the floored scaled random draw. -/
def generateCartId (nowGen : Nat) (rnd : Fin 9000) : String :=
  "CART-" ++ yyyymmdd (nowGen / 86400000) ++ "-" ++ toString (rnd.val + 1000)

/-- Cart id resolution (src/server.js line 129):
`body.cart_id && typeof body.cart_id === 'string' && body.cart_id.trim() !== ''
 ? body.cart_id.trim() : generateCartId()`.
A non-string, absent, empty or whitespace-only value falls through to the
generator; otherwise the trimmed client string is used. -/
def resolveCartId (cartId : Option JVal) (nowGen : Nat) (rnd : Fin 9000) : String :=
  match cartId with
  | some (JVal.vstr s) =>
    if !(s == "") && !(jsTrim s == "") then jsTrim s else generateCartId nowGen rnd
  | _ => generateCartId nowGen rnd

/-- The validity test for `customer_id` (negation of the rejection test at
src/server.js line 93): truthy, of type string, and non-blank after trim.
For a string, truthiness is non-emptiness. -/
def customerIdValid : Option JVal → Bool
  | some (JVal.vstr s) => !(s == "") && !(jsTrim s == "")
  | _ => false

/-- The raw string inside a (validated) `customer_id` field; the handler
stores this value untrimmed (src/server.js line 139). -/
def customerString : Option JVal → String
  | some (JVal.vstr s) => s
  | _ => ""

/-- `!Number.isFinite(qty) || qty <= 0` (src/server.js line 110): NaN and the
infinities fail `isFinite`; a finite quantity is bad when ≤ 0. -/
def badQty : JNum → Bool
  | JNum.fin q => decide (q ≤ 0)
  | _ => true

/-- The per-item validation step of the loop at src/server.js lines 103-120:
missing field, then non-positive/non-finite quantity, then unresolvable
product (`Number(p.id) === pid`; stored ids are numbers, on which `Number` is
the identity).  Returns the pushed detail entry, if any. -/
def checkItem (products : List Product) (i : Nat) (it : ReqItem) : Option ItemError :=
  if it.product_id.isNone || it.quantity.isNone then
    some { index := i, reason := "product_id and quantity are required", product_id := none }
  else
    let qty := jsNumField it.quantity
    if badQty qty then
      some { index := i, reason := "quantity must be a positive number", product_id := none }
    else
      let pid := jsNumField it.product_id
      if (products.find? (fun p => jsEq p.id pid)).isNone then
        some { index := i, reason := "product_not_found", product_id := some pid }
      else
        none

/-- The accumulated `invalidItems` list: the loop visits every index in order
and pushes one entry per offending item, never stopping early. -/
def validateItems (products : List Product) (items : List ReqItem) : List ItemError :=
  items.enum.filterMap fun p => checkItem products p.1 p.2

/-- The stored cart object (src/server.js lines 137-145).  `prevCreated` is
`carts[existingIndex].created_at` when a record with the same id exists. -/
def buildCart (cartId custRaw : String) (items : List ReqItem)
    (createdAt expiresAt : Nat) (prevCreated : Option Nat) : Cart :=
  { cart_id := cartId,
    customer_id := custRaw,
    items := items.map fun it =>
      { product_id := jsNumField it.product_id, quantity := jsNumField it.quantity },
    status := "saved",
    created_at := prevCreated.getD createdAt,
    updated_at := createdAt,
    expires_at := expiresAt }

/-! ### Handlers -/

/-- POST /carts (src/server.js lines 88-166).  Clock reads in source order:
`nowGen` (`new Date()` inside `generateCartId`, used only on the generating
branch), `nowCreated` (`new Date()` at line 134), `nowExpiry` (`Date.now()`
at line 135).  The second component is the write performed by `writeJson`
(`none` when the handler returns before writing). -/
def postCarts (body : CartRequest) (products : List Product) (carts : List Cart)
    (nowGen nowCreated nowExpiry : Nat) (rnd : Fin 9000) :
    HttpResp × Option (List Cart) :=
  if !(customerIdValid body.customer_id) then
    ({ status := 400, body := RespBody.err "missing_customer_id" }, none)
  else
    match body.items with
    | none => ({ status := 400, body := RespBody.err "items_required" }, none)
    | some items =>
      if items.length == 0 then
        ({ status := 400, body := RespBody.err "items_required" }, none)
      else
        let invalidItems := validateItems products items
        if !(invalidItems.length == 0) then
          ({ status := 400, body := RespBody.errDetails "invalid_items" invalidItems }, none)
        else
          let cartId := resolveCartId body.cart_id nowGen rnd
          let createdAt := nowCreated
          let expiresAt := nowExpiry + sevenDaysMs
          match carts.findIdx? (fun c => c.cart_id == cartId) with
          | some j =>
            let newCart := buildCart cartId (customerString body.customer_id) items
              createdAt expiresAt ((carts.get? j).map Cart.created_at)
            ({ status := 200, body := RespBody.cartOk cartId newCart.status "Cart updated" },
              some (carts.set j newCart))
          | none =>
            let newCart := buildCart cartId (customerString body.customer_id) items
              createdAt expiresAt none
            ({ status := 201, body := RespBody.cartOk cartId newCart.status "Cart saved" },
              some (carts ++ [newCart]))

/-- GET /products (src/server.js lines 57-66).  The source evaluates
`await readJsonOrEmpty(PRODUCTS_FILE).slice(0, limit)`: the property access
`.slice` binds before `await`, so it is performed on the pending Promise,
where `slice` is `undefined`; invoking it throws a TypeError that the
handler's try/catch converts into a 500 response. -/
def getProducts (limitQuery : Option String) (productsFile : Option (List Product)) :
    HttpResp :=
  let limit := limitParam limitQuery
  match promiseSliceMethod (readJsonOrEmptyP productsFile) with
  | some slice =>
    let products := slice 0 limit
    { status := 200, body := RespBody.productsOk products.length products }
  | none => { status := 500, body := RespBody.err "internal_server_error" }

/-- GET /products/:id (src/server.js lines 71-82).  `idParam` is the value of
`Number(req.params.id)`; the match is `Number(p.id) === id` and a found array
element is an object, hence truthy, so `!product` is exactly the not-found
case. -/
def getProductById (idParam : JNum) (productsFile : Option (List Product)) : HttpResp :=
  let products := (readJsonOrEmptyP productsFile).val
  match products.find? (fun p => jsEq p.id idParam) with
  | none => { status := 404, body := RespBody.err "product_not_found" }
  | some product => { status := 200, body := RespBody.productOk product }

/-- GET /carts (src/server.js lines 171-185).  `customerId` is
`req.query.customer_id` (`none` when absent); `!userId` also rejects the
empty string, which is falsy.  The filter is exact string equality. -/
def getCarts (customerId : Option String) (carts : List Cart) : HttpResp :=
  match customerId with
  | none => { status := 400, body := RespBody.err "missing_user_id" }
  | some uid =>
    if uid == "" then { status := 400, body := RespBody.err "missing_user_id" }
    else
      let userCarts := carts.filter fun c => c.customer_id == uid
      { status := 200, body := RespBody.cartsOk userCarts.length userCarts }

/-! ### General lemmas about the submission workflow -/

@[simp] theorem buildCart_cart_id (cid cu : String) (its : List ReqItem) (ca ea : Nat)
    (pc : Option Nat) : (buildCart cid cu its ca ea pc).cart_id = cid := rfl

@[simp] theorem buildCart_customer_id (cid cu : String) (its : List ReqItem) (ca ea : Nat)
    (pc : Option Nat) : (buildCart cid cu its ca ea pc).customer_id = cu := rfl

@[simp] theorem buildCart_status (cid cu : String) (its : List ReqItem) (ca ea : Nat)
    (pc : Option Nat) : (buildCart cid cu its ca ea pc).status = "saved" := rfl

@[simp] theorem buildCart_items (cid cu : String) (its : List ReqItem) (ca ea : Nat)
    (pc : Option Nat) : (buildCart cid cu its ca ea pc).items =
      its.map (fun it => ⟨jsNumField it.product_id, jsNumField it.quantity⟩) := rfl

@[simp] theorem buildCart_created_at (cid cu : String) (its : List ReqItem) (ca ea : Nat)
    (pc : Option Nat) : (buildCart cid cu its ca ea pc).created_at = pc.getD ca := rfl

@[simp] theorem buildCart_updated_at (cid cu : String) (its : List ReqItem) (ca ea : Nat)
    (pc : Option Nat) : (buildCart cid cu its ca ea pc).updated_at = ca := rfl

@[simp] theorem buildCart_expires_at (cid cu : String) (its : List ReqItem) (ca ea : Nat)
    (pc : Option Nat) : (buildCart cid cu its ca ea pc).expires_at = ea := rfl

/-- The three validation gates of POST /carts, as a single decidable test. -/
def validRequest (b : CartRequest) (products : List Product) : Bool :=
  customerIdValid b.customer_id &&
    match b.items with
    | some l => !(l.length == 0) && (validateItems products l).length == 0
    | none => false

/-- On a fully valid body, POST /carts reaches the upsert: it replaces in
place when a record with the resolved id exists and appends otherwise. -/
theorem postCarts_valid_eq (b : CartRequest) (ps : List Product) (cs : List Cart)
    (g t e : Nat) (r : Fin 9000) (l : List ReqItem)
    (hc : customerIdValid b.customer_id = true)
    (hi : b.items = some l) (hne : l ≠ [])
    (hv : validateItems ps l = []) :
    postCarts b ps cs g t e r =
      (match cs.findIdx? (fun c => c.cart_id == resolveCartId b.cart_id g r) with
       | some j =>
         ({ status := 200,
            body := RespBody.cartOk (resolveCartId b.cart_id g r) "saved" "Cart updated" },
           some (cs.set j (buildCart (resolveCartId b.cart_id g r)
             (customerString b.customer_id) l t (e + sevenDaysMs)
             ((cs.get? j).map Cart.created_at))))
       | none =>
         ({ status := 201,
            body := RespBody.cartOk (resolveCartId b.cart_id g r) "saved" "Cart saved" },
           some (cs ++ [buildCart (resolveCartId b.cart_id g r)
             (customerString b.customer_id) l t (e + sevenDaysMs) none]))) := by
  unfold postCarts
  rw [hc, hi]
  have hne2 : (l.length == 0) = false := by
    simpa [List.length_eq_zero] using hne
  simp only [Bool.not_true, Bool.false_eq_true, if_false, hne2, hv, List.length_nil,
    beq_self_eq_true, Bool.not_true, buildCart_status]

/-! ### Claims -/

/-- C3: the claim that GET /products succeeds with at most `limit` products
fails on the code: the source awaits `readJsonOrEmpty(PRODUCTS_FILE).slice(0,
limit)`, so the `.slice` property is read off the pending Promise, is
`undefined`, and invoking it throws a TypeError; every request — including
one with no `limit` parameter and an absent products file, which the claim
says is a 200 listing of an empty catalog — returns 500
`internal_server_error`. -/
theorem c3_get_products_always_500 (limitQuery : Option String)
    (productsFile : Option (List Product)) :
    getProducts limitQuery productsFile =
      { status := 500, body := RespBody.err "internal_server_error" } := rfl

/-- C8: GET /products/:id returns 404 `product_not_found` when no stored
product's id matches the numeric-coerced path parameter, and 200 carrying an
exact stored record whose id matches whenever some stored id matches. -/
theorem c8_get_product_by_id (idParam : JNum) (file : Option (List Product)) :
    ((∀ p ∈ file.getD [], jsEq p.id idParam = false) →
      getProductById idParam file =
        { status := 404, body := RespBody.err "product_not_found" }) ∧
    ((∃ p ∈ file.getD [], jsEq p.id idParam = true) →
      ∃ q ∈ file.getD [], jsEq q.id idParam = true ∧
        getProductById idParam file = { status := 200, body := RespBody.productOk q }) := by
  constructor
  · intro h
    unfold getProductById readJsonOrEmptyP
    dsimp only
    rw [List.find?_eq_none.mpr (by simpa using h)]
  · rintro ⟨p, hp, hpe⟩
    cases hfind : (file.getD []).find? (fun q => jsEq q.id idParam) with
    | none =>
      exact absurd hpe (by simpa using List.find?_eq_none.mp hfind p hp)
    | some q =>
      refine ⟨q, List.mem_of_find?_eq_some hfind, by simpa using List.find?_some hfind, ?_⟩
      unfold getProductById readJsonOrEmptyP
      dsimp only
      rw [hfind]

/-- C8 witness: in the catalog with ids 1 and 2, id 9 matches nothing and is
rejected with 404, while id 2 returns its exact stored record. -/
theorem c8_get_product_by_id_witness :
    getProductById (JNum.fin 9) (some [⟨JNum.fin 1, "a"⟩, ⟨JNum.fin 2, "b"⟩]) =
      { status := 404, body := RespBody.err "product_not_found" } ∧
    (∃ q ∈ [Product.mk (JNum.fin 1) "a", Product.mk (JNum.fin 2) "b"],
      jsEq q.id (JNum.fin 2) = true ∧
      getProductById (JNum.fin 2) (some [⟨JNum.fin 1, "a"⟩, ⟨JNum.fin 2, "b"⟩]) =
        { status := 200, body := RespBody.productOk q }) :=
  ⟨(c8_get_product_by_id (JNum.fin 9) (some [⟨JNum.fin 1, "a"⟩, ⟨JNum.fin 2, "b"⟩])).1
      (by decide),
    (c8_get_product_by_id (JNum.fin 2) (some [⟨JNum.fin 1, "a"⟩, ⟨JNum.fin 2, "b"⟩])).2
      (by decide)⟩

/-- C5: a POST /carts rejected with a 400 validation error never reaches
`writeJson`: the performed write is `none`, so the cart store is untouched
and zero items are persisted. -/
theorem c5_rejected_no_write (b : CartRequest) (ps : List Product) (cs : List Cart)
    (g t e : Nat) (r : Fin 9000)
    (h : (postCarts b ps cs g t e r).1.status = 400) :
    (postCarts b ps cs g t e r).2 = none := by
  revert h
  unfold postCarts
  dsimp only
  split
  · intro _; rfl
  · split
    · intro _; rfl
    · split
      · intro _; rfl
      · split
        · intro _; rfl
        · split
          · intro h; simp at h
          · intro h; simp at h

/-- Any detail entry produced for position `i` carries index `i`. -/
theorem checkItem_index (ps : List Product) (i : Nat) (it : ReqItem) (err : ItemError)
    (h : checkItem ps i it = some err) : err.index = i := by
  unfold checkItem at h
  dsimp only at h
  split at h
  · injection h with h2; subst h2; rfl
  · split at h
    · injection h with h2; subst h2; rfl
    · split at h
      · injection h with h2; subst h2; rfl
      · exact Option.noConfusion h

/-- C2: with a present customer id and non-empty items, item validation is
exhaustive: every invalid item contributes a detail entry bearing its index
(and, for unresolvable products, the attempted product id, which is part of
the entry produced by `checkItem`), and a non-empty accumulated list is
returned as 400 `invalid_items` carrying the complete per-index list, with
no write. -/
theorem c2_exhaustive_item_validation (b : CartRequest) (ps : List Product)
    (cs : List Cart) (g t e : Nat) (r : Fin 9000) (l : List ReqItem)
    (hc : customerIdValid b.customer_id = true)
    (hi : b.items = some l) (hne : l ≠ [])
    (hbad : validateItems ps l ≠ []) :
    postCarts b ps cs g t e r =
      ({ status := 400, body := RespBody.errDetails "invalid_items" (validateItems ps l) },
        none) ∧
    ∀ (i : Nat) (hil : i < l.length) (err : ItemError),
      checkItem ps i (l.get ⟨i, hil⟩) = some err →
        err ∈ validateItems ps l ∧ err.index = i := by
  constructor
  · unfold postCarts
    rw [hc, hi]
    have hne2 : (l.length == 0) = false := by
      simpa [List.length_eq_zero] using hne
    have hbad2 : ((validateItems ps l).length == 0) = false := by
      simpa [List.length_eq_zero] using hbad
    simp only [Bool.not_true, Bool.false_eq_true, if_false, hne2, hbad2, Bool.not_false, if_true]
  · intro i hil err herr
    refine ⟨?_, checkItem_index ps i _ err herr⟩
    unfold validateItems
    rw [List.mem_filterMap]
    refine ⟨(i, l.get ⟨i, hil⟩), ?_, herr⟩
    rw [List.mk_mem_enum_iff_getElem?]
    simp [List.getElem?_eq_getElem hil]

/-- C2 witness: the spec's scenario — catalog with ids 1 and 2, items
referencing product 1 (quantity 2) and the unknown product 9 (quantity 1) —
yields 400 `invalid_items` with the single detail entry for index 1. -/
theorem c2_exhaustive_item_validation_witness :
    postCarts
      ⟨none, some (JVal.vstr "u1"),
        some [⟨some (JNum.fin 1), some (JNum.fin 2)⟩, ⟨some (JNum.fin 9), some (JNum.fin 1)⟩]⟩
      [⟨JNum.fin 1, "a"⟩, ⟨JNum.fin 2, "b"⟩] [] 0 0 0 ⟨0, by decide⟩ =
      ({ status := 400,
         body := RespBody.errDetails "invalid_items"
           [⟨1, "product_not_found", some (JNum.fin 9)⟩] }, none) := by
  have h := (c2_exhaustive_item_validation
    ⟨none, some (JVal.vstr "u1"),
      some [⟨some (JNum.fin 1), some (JNum.fin 2)⟩, ⟨some (JNum.fin 9), some (JNum.fin 1)⟩]⟩
    [⟨JNum.fin 1, "a"⟩, ⟨JNum.fin 2, "b"⟩] [] 0 0 0 ⟨0, by decide⟩
    [⟨some (JNum.fin 1), some (JNum.fin 2)⟩, ⟨some (JNum.fin 9), some (JNum.fin 1)⟩]
    (by decide) rfl (by decide) (by decide)).1
  rw [h]
  decide

/-- C5 witness: a request with a blank customer id is rejected 400 and the
write action is `none`. -/
theorem c5_rejected_no_write_witness :
    (postCarts ⟨none, some (JVal.vstr " "), some [⟨some (JNum.fin 1), some (JNum.fin 1)⟩]⟩
      [⟨JNum.fin 1, "a"⟩] [] 0 0 0 ⟨0, by decide⟩).2 = none :=
  c5_rejected_no_write ⟨none, some (JVal.vstr " "), some [⟨some (JNum.fin 1), some (JNum.fin 1)⟩]⟩
    [⟨JNum.fin 1, "a"⟩] [] 0 0 0 ⟨0, by decide⟩ (by decide)

/-- When a record with the resolved id exists (`findIdx? = some j`), the
index is in range and the record at it matches the id. -/
theorem findIdx?_some_elim (cs : List Cart) (cid : String) (j : Nat)
    (h : cs.findIdx? (fun c => c.cart_id == cid) = some j) :
    j < cs.length ∧ ∃ hj : j < cs.length, cs[j].cart_id = cid := by
  rw [List.findIdx?_eq_some_iff_getElem] at h
  obtain ⟨hj, hp, -⟩ := h
  exact ⟨hj, hj, by simpa using hp⟩

/-- C7 counterexample: a request supplying `cart_id` `" abc "` — a non-empty
string after trimming — is stored and answered with cart id `"abc"`, not
with the supplied string verbatim. -/
theorem c7_counterexample :
    (postCarts ⟨some (JVal.vstr " abc "), some (JVal.vstr "u1"),
        some [⟨some (JNum.fin 1), some (JNum.fin 1)⟩]⟩
      [⟨JNum.fin 1, "a"⟩] [] 0 0 0 ⟨0, by decide⟩) =
      ({ status := 201, body := RespBody.cartOk "abc" "saved" "Cart saved" },
        some [⟨"abc", "u1", [⟨JNum.fin 1, JNum.fin 1⟩], "saved", 0, 0, 604800000⟩]) ∧
    "abc" ≠ " abc " := by decide

/-- C7 amended: on every valid submission the cart id stored and returned is
the resolved one; when the request supplies a `cart_id` that is a non-empty
string after trimming it is the TRIMMED supplied string (not the verbatim
one), and otherwise it is `CART-<YYYYMMDD>-<suffix>` where the date is the
UTC calendar date of the generator clock read and the suffix lies in
[1000, 9999]. -/
theorem c7_trimmed_or_generated (b : CartRequest) (ps : List Product) (cs : List Cart)
    (g t e : Nat) (r : Fin 9000) (l : List ReqItem)
    (hc : customerIdValid b.customer_id = true)
    (hi : b.items = some l) (hne : l ≠ []) (hv : validateItems ps l = []) :
    (∃ st msg s2, postCarts b ps cs g t e r =
        ({ status := st, body := RespBody.cartOk (resolveCartId b.cart_id g r) "saved" msg },
          some s2) ∧
        ∃ c ∈ s2, c.cart_id = resolveCartId b.cart_id g r) ∧
    (∀ s : String, b.cart_id = some (JVal.vstr s) → s ≠ "" → jsTrim s ≠ "" →
        resolveCartId b.cart_id g r = jsTrim s) ∧
    ((match b.cart_id with
      | some (JVal.vstr s) => s = "" ∨ jsTrim s = ""
      | _ => True) →
      resolveCartId b.cart_id g r =
        "CART-" ++ yyyymmdd (g / 86400000) ++ "-" ++ toString (r.val + 1000) ∧
      1000 ≤ r.val + 1000 ∧ r.val + 1000 ≤ 9999) := by
  refine ⟨?_, ?_, ?_⟩
  · rw [postCarts_valid_eq b ps cs g t e r l hc hi hne hv]
    cases hfind : cs.findIdx? (fun c => c.cart_id == resolveCartId b.cart_id g r) with
    | some j =>
      obtain ⟨hj, -⟩ := findIdx?_some_elim cs _ j hfind
      exact ⟨200, "Cart updated", _, rfl,
        buildCart (resolveCartId b.cart_id g r) (customerString b.customer_id) l t
          (e + sevenDaysMs) ((cs.get? j).map Cart.created_at),
        List.mem_set cs j hj _, rfl⟩
    | none =>
      exact ⟨201, "Cart saved", _, rfl,
        buildCart (resolveCartId b.cart_id g r) (customerString b.customer_id) l t
          (e + sevenDaysMs) none,
        List.mem_append_right cs (List.mem_singleton_self _), rfl⟩
  · intro s hs hs1 hs2
    rw [hs]
    unfold resolveCartId
    dsimp only
    rw [if_pos]
    simp only [Bool.and_eq_true, Bool.not_eq_true', beq_eq_false_iff_ne, ne_eq]
    exact ⟨hs1, hs2⟩
  · intro hgen
    refine ⟨?_, Nat.le_add_left 1000 r.val, by omega⟩
    have hr := r.isLt
    cases hb : b.cart_id with
    | none => rfl
    | some v =>
      cases v with
      | vstr s =>
        rw [hb] at hgen
        dsimp only at hgen
        unfold resolveCartId generateCartId
        dsimp only
        rw [if_neg]
        simp only [Bool.and_eq_true, Bool.not_eq_true', beq_eq_false_iff_ne, ne_eq, not_and]
        intro h1
        rcases hgen with h | h
        · exact absurd h h1
        · intro h2; exact h2 h
      | vnum n => rfl
      | vnull => rfl
      | vbool bb => rfl

/-- C7 witness: with a whitespace-padded supplied id the resolved id is the
trimmed string, and with no supplied id the generated id is
`CART-19700101-1000` for clock 0 and random draw 0 (suffix 1000 within
bounds). -/
theorem c7_trimmed_or_generated_witness :
    resolveCartId (some (JVal.vstr " abc ")) 0 ⟨0, by decide⟩ = jsTrim " abc " ∧
    (resolveCartId none 0 ⟨0, by decide⟩ =
      "CART-" ++ yyyymmdd (0 / 86400000) ++ "-" ++ toString ((0 : Nat) + 1000) ∧
      1000 ≤ (0 : Nat) + 1000 ∧ (0 : Nat) + 1000 ≤ 9999) :=
  ⟨(c7_trimmed_or_generated
      ⟨some (JVal.vstr " abc "), some (JVal.vstr "u1"),
        some [⟨some (JNum.fin 1), some (JNum.fin 1)⟩]⟩
      [⟨JNum.fin 1, "a"⟩] [] 0 0 0 ⟨0, by decide⟩
      [⟨some (JNum.fin 1), some (JNum.fin 1)⟩]
      (by decide) rfl (by decide) (by decide)).2.1 " abc " rfl (by decide) (by decide),
    (c7_trimmed_or_generated
      ⟨none, some (JVal.vstr "u1"), some [⟨some (JNum.fin 1), some (JNum.fin 1)⟩]⟩
      [⟨JNum.fin 1, "a"⟩] [] 0 0 0 ⟨0, by decide⟩
      [⟨some (JNum.fin 1), some (JNum.fin 1)⟩]
      (by decide) rfl (by decide) (by decide)).2.2 trivial⟩

/-- C4 counterexample: `updated_at` comes from the `new Date()` read at line
134 while `expires_at` comes from a separate `Date.now()` read at line 135;
when the clock ticks from 0 to 1 between the two statements the stored
record has `expires_at = 604800001` but `updated_at + 7 days = 604800000`. -/
theorem c4_counterexample :
    (postCarts ⟨some (JVal.vstr "k"), some (JVal.vstr "u1"),
        some [⟨some (JNum.fin 1), some (JNum.fin 1)⟩]⟩
      [⟨JNum.fin 1, "a"⟩] [] 0 0 1 ⟨0, by decide⟩).2 =
      some [⟨"k", "u1", [⟨JNum.fin 1, JNum.fin 1⟩], "saved", 0, 0, 604800001⟩] ∧
    (604800001 : Nat) ≠ 0 + sevenDaysMs := by decide

/-- C4 amended: `expires_at` equals the `Date.now()` reading taken at write
time plus exactly 7 days; whenever that reading coincides with the
`new Date()` reading used for `created_at`/`updated_at` (the two are taken
back to back in the same handler invocation), every record of the written
store satisfies `expires_at = updated_at + 7 days`, provided every
pre-existing record did — the newly built record satisfies it outright and
all other records are carried over unchanged. -/
theorem c4_expiry_invariant (b : CartRequest) (ps : List Product) (cs : List Cart)
    (g t : Nat) (r : Fin 9000) (s2 : List Cart)
    (hw : (postCarts b ps cs g t t r).2 = some s2)
    (hinv : ∀ c ∈ cs, c.expires_at = c.updated_at + sevenDaysMs) :
    ∀ c ∈ s2, c.expires_at = c.updated_at + sevenDaysMs := by
  revert hw
  unfold postCarts
  dsimp only
  split
  · intro hw; simp at hw
  · split
    · intro hw; simp at hw
    · split
      · intro hw; simp at hw
      · split
        · intro hw; simp at hw
        · split
          · intro hw
            simp only [Option.some.injEq] at hw
            subst hw
            intro c hcmem
            rcases List.mem_or_eq_of_mem_set hcmem with hmem | rfl
            · exact hinv c hmem
            · simp
          · intro hw
            simp only [Option.some.injEq] at hw
            subst hw
            intro c hcmem
            rcases List.mem_append.mp hcmem with hmem | hmem
            · exact hinv c hmem
            · rw [List.mem_singleton] at hmem
              subst hmem
              simp

/-- C4 witness: starting from an empty store with both clock reads equal to
5, the single record of the written store satisfies the 7-day relation. -/
theorem c4_expiry_invariant_witness :
    (Cart.mk "k" "u1" [⟨JNum.fin 1, JNum.fin 1⟩] "saved" 5 5 604800005).expires_at =
      (Cart.mk "k" "u1" [⟨JNum.fin 1, JNum.fin 1⟩] "saved" 5 5 604800005).updated_at +
        sevenDaysMs :=
  c4_expiry_invariant
    ⟨some (JVal.vstr "k"), some (JVal.vstr "u1"),
      some [⟨some (JNum.fin 1), some (JNum.fin 1)⟩]⟩
    [⟨JNum.fin 1, "a"⟩] [] 0 5 ⟨0, by decide⟩
    [Cart.mk "k" "u1" [⟨JNum.fin 1, JNum.fin 1⟩] "saved" 5 5 604800005]
    (by decide) (by intro c hc; exact absurd hc (List.not_mem_nil c))
    (Cart.mk "k" "u1" [⟨JNum.fin 1, JNum.fin 1⟩] "saved" 5 5 604800005)
    (List.mem_singleton_self _)

/-- C9: the upsert is keyed solely by `cart_id`: when a stored record matches
the resolved id, the store is rewritten with that position replaced wholesale
by a record carrying the new request's `customer_id` (and items and
timestamps), every other position unchanged — no ownership check relates the
old and new customers. -/
theorem c9_overwrite_no_ownership (b : CartRequest) (ps : List Product) (cs : List Cart)
    (g t e : Nat) (r : Fin 9000) (l : List ReqItem) (j : Nat)
    (hc : customerIdValid b.customer_id = true)
    (hi : b.items = some l) (hne : l ≠ []) (hv : validateItems ps l = [])
    (hfind : cs.findIdx? (fun c => c.cart_id == resolveCartId b.cart_id g r) = some j) :
    ∃ newCart,
      (postCarts b ps cs g t e r).2 = some (cs.set j newCart) ∧
      newCart.cart_id = resolveCartId b.cart_id g r ∧
      newCart.customer_id = customerString b.customer_id ∧
      newCart.items = l.map (fun it => ⟨jsNumField it.product_id, jsNumField it.quantity⟩) ∧
      newCart.updated_at = t ∧
      newCart.expires_at = e + sevenDaysMs ∧
      (cs.set j newCart)[j]? = some newCart ∧
      ∀ k, k ≠ j → (cs.set j newCart)[k]? = cs[k]? := by
  obtain ⟨hj, -⟩ := findIdx?_some_elim cs _ j hfind
  refine ⟨buildCart (resolveCartId b.cart_id g r) (customerString b.customer_id) l t
    (e + sevenDaysMs) ((cs.get? j).map Cart.created_at), ?_, rfl, rfl, rfl, rfl, rfl, ?_, ?_⟩
  · rw [postCarts_valid_eq b ps cs g t e r l hc hi hne hv, hfind]
  · exact List.getElem?_set_self hj
  · intro k hk
    exact List.getElem?_set_ne (fun h => hk h.symm)

/-- C9 witness: a cart stored for customer `alice` is overwritten and
reassigned by a submission for the same `cart_id` from customer `bob`. -/
theorem c9_overwrite_no_ownership_witness :
    ∃ newCart,
      (postCarts ⟨some (JVal.vstr "X"), some (JVal.vstr "bob"),
          some [⟨some (JNum.fin 2), some (JNum.fin 3)⟩]⟩
        [⟨JNum.fin 1, "a"⟩, ⟨JNum.fin 2, "b"⟩]
        [⟨"X", "alice", [⟨JNum.fin 1, JNum.fin 1⟩], "saved", 0, 0, 604800000⟩]
        7 8 9 ⟨0, by decide⟩).2 =
        some ([⟨"X", "alice", [⟨JNum.fin 1, JNum.fin 1⟩], "saved", 0, 0, 604800000⟩].set
          0 newCart) ∧
      newCart.cart_id = resolveCartId (some (JVal.vstr "X")) 7 ⟨0, by decide⟩ ∧
      newCart.customer_id = customerString (some (JVal.vstr "bob")) ∧
      newCart.items = [ReqItem.mk (some (JNum.fin 2)) (some (JNum.fin 3))].map
        (fun it => ⟨jsNumField it.product_id, jsNumField it.quantity⟩) ∧
      newCart.updated_at = 8 ∧
      newCart.expires_at = 9 + sevenDaysMs ∧
      ([⟨"X", "alice", [⟨JNum.fin 1, JNum.fin 1⟩], "saved", 0, 0, 604800000⟩].set
        0 newCart)[0]? = some newCart ∧
      ∀ k, k ≠ 0 →
        ([⟨"X", "alice", [⟨JNum.fin 1, JNum.fin 1⟩], "saved", 0, 0, 604800000⟩].set
          0 newCart)[k]? =
        [Cart.mk "X" "alice" [⟨JNum.fin 1, JNum.fin 1⟩] "saved" 0 0 604800000][k]? :=
  c9_overwrite_no_ownership ⟨some (JVal.vstr "X"), some (JVal.vstr "bob"),
      some [⟨some (JNum.fin 2), some (JNum.fin 3)⟩]⟩
    [⟨JNum.fin 1, "a"⟩, ⟨JNum.fin 2, "b"⟩]
    [⟨"X", "alice", [⟨JNum.fin 1, JNum.fin 1⟩], "saved", 0, 0, 604800000⟩]
    7 8 9 ⟨0, by decide⟩ [⟨some (JNum.fin 2), some (JNum.fin 3)⟩] 0
    (by decide) rfl (by decide) (by decide) (by decide)

/-- C10: `customer_id` is validated against its trimmed value but stored
untrimmed; because GET /carts filters by exact string equality, a submission
with a whitespace-padded customer id succeeds, stores the padded string, and
the stored record is missing from a subsequent GET /carts query for the
trimmed id — the save/query round trip fails. -/
theorem c10_untrimmed_customer_roundtrip (b : CartRequest) (ps : List Product)
    (cs : List Cart) (g t e : Nat) (r : Fin 9000) (l : List ReqItem) (s : String)
    (hcu : b.customer_id = some (JVal.vstr s)) (hs1 : s ≠ "") (hs2 : jsTrim s ≠ "")
    (hdiff : jsTrim s ≠ s)
    (hi : b.items = some l) (hne : l ≠ []) (hv : validateItems ps l = []) :
    ∃ s2 c, (postCarts b ps cs g t e r).2 = some s2 ∧ c ∈ s2 ∧
      c.cart_id = resolveCartId b.cart_id g r ∧ c.customer_id = s ∧
      ∃ lst, getCarts (some (jsTrim s)) s2 =
        { status := 200, body := RespBody.cartsOk lst.length lst } ∧ c ∉ lst := by
  have hc : customerIdValid b.customer_id = true := by
    rw [hcu]
    unfold customerIdValid
    simp only [Bool.and_eq_true, Bool.not_eq_true', beq_eq_false_iff_ne, ne_eq]
    exact ⟨hs1, hs2⟩
  have hcs : customerString b.customer_id = s := by rw [hcu]; rfl
  have hget : ∀ s2 : List Cart,
      getCarts (some (jsTrim s)) s2 =
        { status := 200,
          body := RespBody.cartsOk (s2.filter (fun x => x.customer_id == jsTrim s)).length
            (s2.filter (fun x => x.customer_id == jsTrim s)) } := by
    intro s2
    unfold getCarts
    dsimp only
    rw [if_neg]
    simp only [beq_iff_eq]
    exact hs2
  have hnotmem : ∀ (c : Cart) (s2 : List Cart), c.customer_id = s →
      c ∉ s2.filter (fun x => x.customer_id == jsTrim s) := by
    intro c s2 hcc hmem
    have h2 := (List.mem_filter.mp hmem).2
    rw [hcc, beq_iff_eq] at h2
    exact hdiff h2.symm
  rw [postCarts_valid_eq b ps cs g t e r l hc hi hne hv]
  cases hfind : cs.findIdx? (fun c => c.cart_id == resolveCartId b.cart_id g r) with
  | some j =>
    obtain ⟨hj, -⟩ := findIdx?_some_elim cs _ j hfind
    refine ⟨_, buildCart (resolveCartId b.cart_id g r) (customerString b.customer_id) l t
      (e + sevenDaysMs) ((cs.get? j).map Cart.created_at), rfl,
      List.mem_set cs j hj _, rfl, by rw [buildCart_customer_id, hcs], ?_⟩
    exact ⟨_, hget _, hnotmem _ _ (by rw [buildCart_customer_id, hcs])⟩
  | none =>
    refine ⟨_, buildCart (resolveCartId b.cart_id g r) (customerString b.customer_id) l t
      (e + sevenDaysMs) none, rfl,
      List.mem_append_right cs (List.mem_singleton_self _), rfl,
      by rw [buildCart_customer_id, hcs], ?_⟩
    exact ⟨_, hget _, hnotmem _ _ (by rw [buildCart_customer_id, hcs])⟩

/-- C10 witness: customer id `" u1 "` (padded) is accepted and stored as is;
GET /carts for `"u1"` then returns a list not containing the saved record. -/
theorem c10_untrimmed_customer_roundtrip_witness :
    ∃ s2 c,
      (postCarts ⟨some (JVal.vstr "K"), some (JVal.vstr " u1 "),
          some [⟨some (JNum.fin 1), some (JNum.fin 1)⟩]⟩
        [⟨JNum.fin 1, "a"⟩] [] 0 0 0 ⟨0, by decide⟩).2 = some s2 ∧ c ∈ s2 ∧
      c.cart_id = resolveCartId (some (JVal.vstr "K")) 0 ⟨0, by decide⟩ ∧
      c.customer_id = " u1 " ∧
      ∃ lst, getCarts (some (jsTrim " u1 ")) s2 =
        { status := 200, body := RespBody.cartsOk lst.length lst } ∧ c ∉ lst :=
  c10_untrimmed_customer_roundtrip ⟨some (JVal.vstr "K"), some (JVal.vstr " u1 "),
      some [⟨some (JNum.fin 1), some (JNum.fin 1)⟩]⟩
    [⟨JNum.fin 1, "a"⟩] [] 0 0 0 ⟨0, by decide⟩
    [⟨some (JNum.fin 1), some (JNum.fin 1)⟩] " u1 "
    rfl (by decide) (by decide) (by decide) rfl (by decide) (by decide)

/-- Setting a position of a list to the value it already holds leaves the
list unchanged. -/
theorem set_getElem_self_eq {α : Type} (l : List α) (i : Nat) (h : i < l.length) :
    l.set i l[i] = l := by
  apply List.ext_getElem?
  intro n
  by_cases hn : i = n
  · subst hn
    rw [List.getElem?_set_self h, List.getElem?_eq_getElem h]
  · exact List.getElem?_set_ne hn

/-- C6: a successful POST /carts preserves uniqueness of `cart_id`: on a
store whose ids are pairwise distinct, a record matching the resolved id is
replaced in place (the id sequence is unchanged) and a fresh id is appended
at the end, so a second write with an existing id never yields a duplicate
record. -/
theorem c6_unique_cart_id (b : CartRequest) (ps : List Product) (cs : List Cart)
    (g t e : Nat) (r : Fin 9000) (l : List ReqItem)
    (hc : customerIdValid b.customer_id = true)
    (hi : b.items = some l) (hne : l ≠ []) (hv : validateItems ps l = [])
    (hnd : (cs.map Cart.cart_id).Nodup) :
    ∃ s2, (postCarts b ps cs g t e r).2 = some s2 ∧
      (s2.map Cart.cart_id).Nodup ∧
      (resolveCartId b.cart_id g r ∈ cs.map Cart.cart_id →
        s2.map Cart.cart_id = cs.map Cart.cart_id) ∧
      (resolveCartId b.cart_id g r ∉ cs.map Cart.cart_id →
        s2.map Cart.cart_id = cs.map Cart.cart_id ++ [resolveCartId b.cart_id g r]) := by
  rw [postCarts_valid_eq b ps cs g t e r l hc hi hne hv]
  cases hfind : cs.findIdx? (fun c => c.cart_id == resolveCartId b.cart_id g r) with
  | some j =>
    obtain ⟨hj, hj2, hcid⟩ := findIdx?_some_elim cs _ j hfind
    have hjm : j < (cs.map Cart.cart_id).length := by simpa using hj
    have hcid2 : (cs.map Cart.cart_id)[j] = resolveCartId b.cart_id g r := by
      rw [List.getElem_map]
      exact hcid
    have hmap : ((cs.set j (buildCart (resolveCartId b.cart_id g r)
        (customerString b.customer_id) l t (e + sevenDaysMs)
        ((cs.get? j).map Cart.created_at))).map Cart.cart_id) = cs.map Cart.cart_id := by
      rw [List.map_set, buildCart_cart_id, ← hcid2, set_getElem_self_eq _ _ hjm]
    refine ⟨_, rfl, ?_, fun _ => hmap, fun hnot => ?_⟩
    · rw [hmap]; exact hnd
    · exact absurd (hcid2 ▸ List.getElem_mem hjm) hnot
  | none =>
    have hnotin : resolveCartId b.cart_id g r ∉ cs.map Cart.cart_id := by
      rw [List.findIdx?_eq_none_iff] at hfind
      intro hmem
      obtain ⟨c, hcmem, hceq⟩ := List.mem_map.mp hmem
      have hf := hfind c hcmem
      rw [hceq] at hf
      simp at hf
    have hmap : ((cs ++ [buildCart (resolveCartId b.cart_id g r)
        (customerString b.customer_id) l t (e + sevenDaysMs) none]).map Cart.cart_id) =
        cs.map Cart.cart_id ++ [resolveCartId b.cart_id g r] := by
      rw [List.map_append]
      rfl
    refine ⟨_, rfl, ?_, fun hmem => absurd hmem hnotin, fun _ => hmap⟩
    rw [hmap]
    refine List.Nodup.append hnd (List.nodup_singleton _) ?_
    intro a ha hb
    rw [List.mem_singleton] at hb
    subst hb
    exact hnotin ha

/-- C6 witness: on a store holding ids `X` and `Y`, a submission reusing id
`X` keeps the id sequence `[X, Y]` with no duplicate. -/
theorem c6_unique_cart_id_witness :
    ∃ s2,
      (postCarts ⟨some (JVal.vstr "X"), some (JVal.vstr "u1"),
          some [⟨some (JNum.fin 1), some (JNum.fin 1)⟩]⟩
        [⟨JNum.fin 1, "a"⟩]
        [⟨"X", "u1", [⟨JNum.fin 1, JNum.fin 1⟩], "saved", 0, 0, 604800000⟩,
         ⟨"Y", "u2", [⟨JNum.fin 1, JNum.fin 1⟩], "saved", 0, 0, 604800000⟩]
        0 1 1 ⟨0, by decide⟩).2 = some s2 ∧
      (s2.map Cart.cart_id).Nodup ∧
      (resolveCartId (some (JVal.vstr "X")) 0 ⟨0, by decide⟩ ∈
          ([⟨"X", "u1", [⟨JNum.fin 1, JNum.fin 1⟩], "saved", 0, 0, 604800000⟩,
            ⟨"Y", "u2", [⟨JNum.fin 1, JNum.fin 1⟩], "saved", 0, 0, 604800000⟩] :
            List Cart).map Cart.cart_id →
        s2.map Cart.cart_id =
          ([⟨"X", "u1", [⟨JNum.fin 1, JNum.fin 1⟩], "saved", 0, 0, 604800000⟩,
            ⟨"Y", "u2", [⟨JNum.fin 1, JNum.fin 1⟩], "saved", 0, 0, 604800000⟩] :
            List Cart).map Cart.cart_id) ∧
      (resolveCartId (some (JVal.vstr "X")) 0 ⟨0, by decide⟩ ∉
          ([⟨"X", "u1", [⟨JNum.fin 1, JNum.fin 1⟩], "saved", 0, 0, 604800000⟩,
            ⟨"Y", "u2", [⟨JNum.fin 1, JNum.fin 1⟩], "saved", 0, 0, 604800000⟩] :
            List Cart).map Cart.cart_id →
        s2.map Cart.cart_id =
          ([⟨"X", "u1", [⟨JNum.fin 1, JNum.fin 1⟩], "saved", 0, 0, 604800000⟩,
            ⟨"Y", "u2", [⟨JNum.fin 1, JNum.fin 1⟩], "saved", 0, 0, 604800000⟩] :
            List Cart).map Cart.cart_id ++
            [resolveCartId (some (JVal.vstr "X")) 0 ⟨0, by decide⟩]) :=
  c6_unique_cart_id ⟨some (JVal.vstr "X"), some (JVal.vstr "u1"),
      some [⟨some (JNum.fin 1), some (JNum.fin 1)⟩]⟩
    [⟨JNum.fin 1, "a"⟩]
    [⟨"X", "u1", [⟨JNum.fin 1, JNum.fin 1⟩], "saved", 0, 0, 604800000⟩,
     ⟨"Y", "u2", [⟨JNum.fin 1, JNum.fin 1⟩], "saved", 0, 0, 604800000⟩]
    0 1 1 ⟨0, by decide⟩ [⟨some (JNum.fin 1), some (JNum.fin 1)⟩]
    (by decide) rfl (by decide) (by decide) (by decide)

/-- C1: submitting two valid bodies that resolve to the same cart id, the
id being fresh for the store, yields 201 then 200, both answering with that
id; the final store holds exactly one record under the id, whose
`created_at` is the first call's timestamp and whose `updated_at` and
`expires_at` come from the second call's clock reads. -/
theorem c1_idempotent_by_cart_id (b1 b2 : CartRequest) (ps : List Product) (cs : List Cart)
    (g1 t1 e1 g2 t2 e2 : Nat) (r1 r2 : Fin 9000) (l1 l2 : List ReqItem)
    (hc1 : customerIdValid b1.customer_id = true) (hi1 : b1.items = some l1)
    (hne1 : l1 ≠ []) (hv1 : validateItems ps l1 = [])
    (hc2 : customerIdValid b2.customer_id = true) (hi2 : b2.items = some l2)
    (hne2 : l2 ≠ []) (hv2 : validateItems ps l2 = [])
    (hid : resolveCartId b2.cart_id g2 r2 = resolveCartId b1.cart_id g1 r1)
    (habsent : ∀ c ∈ cs, c.cart_id ≠ resolveCartId b1.cart_id g1 r1) :
    ∃ s1 s2,
      postCarts b1 ps cs g1 t1 e1 r1 =
        ({ status := 201,
           body := RespBody.cartOk (resolveCartId b1.cart_id g1 r1) "saved" "Cart saved" },
          some s1) ∧
      postCarts b2 ps s1 g2 t2 e2 r2 =
        ({ status := 200,
           body := RespBody.cartOk (resolveCartId b1.cart_id g1 r1) "saved" "Cart updated" },
          some s2) ∧
      (s2.filter (fun c => c.cart_id == resolveCartId b1.cart_id g1 r1)).length = 1 ∧
      ∀ c ∈ s2, c.cart_id = resolveCartId b1.cart_id g1 r1 →
        c.created_at = t1 ∧ c.updated_at = t2 ∧ c.expires_at = e2 + sevenDaysMs := by
  have hnone : cs.findIdx?
      (fun c => c.cart_id == resolveCartId b1.cart_id g1 r1) = none :=
    List.findIdx?_eq_none_iff.mpr (fun c hcmem => by
      simpa using habsent c hcmem)
  have hfind2 : (cs ++ [buildCart (resolveCartId b1.cart_id g1 r1)
      (customerString b1.customer_id) l1 t1 (e1 + sevenDaysMs) none]).findIdx?
      (fun c => c.cart_id == resolveCartId b1.cart_id g1 r1) = some cs.length := by
    rw [List.findIdx?_append, hnone, Option.none_or]
    simp
  have hprev : (((cs ++ [buildCart (resolveCartId b1.cart_id g1 r1)
      (customerString b1.customer_id) l1 t1 (e1 + sevenDaysMs) none]).get?
      cs.length).map Cart.created_at) = some t1 := by
    rw [List.get?_eq_getElem?, List.getElem?_concat_length]
    rfl
  have hset : (cs ++ [buildCart (resolveCartId b1.cart_id g1 r1)
        (customerString b1.customer_id) l1 t1 (e1 + sevenDaysMs) none]).set cs.length
        (buildCart (resolveCartId b1.cart_id g1 r1) (customerString b2.customer_id) l2 t2
          (e2 + sevenDaysMs) (some t1)) =
      cs ++ [buildCart (resolveCartId b1.cart_id g1 r1) (customerString b2.customer_id) l2 t2
        (e2 + sevenDaysMs) (some t1)] := by
    rw [List.set_append_right cs.length _ (Nat.le_refl cs.length), Nat.sub_self]
    rfl
  refine ⟨cs ++ [buildCart (resolveCartId b1.cart_id g1 r1)
      (customerString b1.customer_id) l1 t1 (e1 + sevenDaysMs) none],
    cs ++ [buildCart (resolveCartId b1.cart_id g1 r1) (customerString b2.customer_id) l2 t2
      (e2 + sevenDaysMs) (some t1)], ?_, ?_, ?_, ?_⟩
  · rw [postCarts_valid_eq b1 ps cs g1 t1 e1 r1 l1 hc1 hi1 hne1 hv1, hnone]
  · rw [postCarts_valid_eq b2 ps _ g2 t2 e2 r2 l2 hc2 hi2 hne2 hv2, hid, hfind2]
    dsimp only
    rw [hprev, hset]
  · rw [List.filter_append]
    rw [List.filter_eq_nil_iff.mpr (fun c hcmem => by simpa using habsent c hcmem)]
    simp
  · intro c hcmem hcid
    rcases List.mem_append.mp hcmem with hmem | hmem
    · exact absurd hcid (habsent c hmem)
    · rw [List.mem_singleton] at hmem
      subst hmem
      exact ⟨rfl, rfl, rfl⟩

/-- C1 witness: with a catalog containing product 1 and an empty store, two
submissions of cart id `c1` give 201 then 200, one stored record under
`c1`, `created_at` 10 from the first call, `updated_at` 20 and `expires_at`
25 + 7 days from the second. -/
theorem c1_idempotent_by_cart_id_witness :
    ∃ s1 s2,
      postCarts ⟨some (JVal.vstr "c1"), some (JVal.vstr "u1"),
          some [⟨some (JNum.fin 1), some (JNum.fin 2)⟩]⟩
        [⟨JNum.fin 1, "a"⟩] [] 5 10 15 ⟨0, by decide⟩ =
        ({ status := 201,
           body := RespBody.cartOk (resolveCartId (some (JVal.vstr "c1")) 5 ⟨0, by decide⟩)
             "saved" "Cart saved" }, some s1) ∧
      postCarts ⟨some (JVal.vstr "c1"), some (JVal.vstr "u1"),
          some [⟨some (JNum.fin 1), some (JNum.fin 3)⟩]⟩
        [⟨JNum.fin 1, "a"⟩] s1 6 20 25 ⟨1, by decide⟩ =
        ({ status := 200,
           body := RespBody.cartOk (resolveCartId (some (JVal.vstr "c1")) 5 ⟨0, by decide⟩)
             "saved" "Cart updated" }, some s2) ∧
      (s2.filter (fun c =>
        c.cart_id == resolveCartId (some (JVal.vstr "c1")) 5 ⟨0, by decide⟩)).length = 1 ∧
      ∀ c ∈ s2, c.cart_id = resolveCartId (some (JVal.vstr "c1")) 5 ⟨0, by decide⟩ →
        c.created_at = 10 ∧ c.updated_at = 20 ∧ c.expires_at = 25 + sevenDaysMs :=
  c1_idempotent_by_cart_id
    ⟨some (JVal.vstr "c1"), some (JVal.vstr "u1"),
      some [⟨some (JNum.fin 1), some (JNum.fin 2)⟩]⟩
    ⟨some (JVal.vstr "c1"), some (JVal.vstr "u1"),
      some [⟨some (JNum.fin 1), some (JNum.fin 3)⟩]⟩
    [⟨JNum.fin 1, "a"⟩] [] 5 10 15 6 20 25 ⟨0, by decide⟩ ⟨1, by decide⟩
    [⟨some (JNum.fin 1), some (JNum.fin 2)⟩] [⟨some (JNum.fin 1), some (JNum.fin 3)⟩]
    (by decide) rfl (by decide) (by decide)
    (by decide) rfl (by decide) (by decide)
    (by decide) (by intro c hc; exact absurd hc (List.not_mem_nil c))

end QuickCart
